import Mathlib

/-!
Verification development for the multi-chain wallet transfer & trustline
subsystem of the rozo-app-mobile repository.

The TypeScript source is shallowly embedded: every stateful hook becomes a
pure Lean function from an explicit dependency record (the React context
values the hook closes over) and an environment record (the responses of the
remote collaborators: ledger, signer, backend) to a run record (the trace of
observable effects plus the returned value / final component state).
Balance amounts, which the source carries as decimal strings and compares via
`parseFloat`, are embedded as exact rationals denoting the parsed value.
-/

set_option maxRecDepth 8192

namespace Rozo

/-- JavaScript-style `a.includes(b)`: substring containment on strings. -/
def containsSubstr (needle hay : String) : Bool :=
  decide (needle.data <:+: hay.data)

/-- JavaScript `s || fallback` on a string: the fallback replaces the empty
(falsy) string. -/
def jsOrStr (s fallback : String) : String :=
  if s = "" then fallback else s

/-- JavaScript `x || fallback` where `x` is an optional string field
(`undefined` or a possibly-empty string). -/
def jsOrOpt (s : Option String) (fallback : String) : String :=
  match s with
  | some m => jsOrStr m fallback
  | none => fallback

/-- One entry of a Stellar account's `balances` array
(`{asset_type, asset_code?, asset_issuer?, balance}`); the decimal-string
amount is embedded as the rational it denotes. -/
structure StellarBalance where
  asset_type : String
  asset_code : Option String := none
  asset_issuer : Option String := none
  balance : ℚ
deriving Repr, DecidableEq

/-- A Stellar `Horizon.AccountResponse` as far as the core uses it:
the sequence number and the balances array. -/
structure AccountRec where
  sequence : Nat
  balances : List StellarBalance
deriving Repr, DecidableEq

/-- The USDC issuer hard-coded in `src/libs/stellar/trustline.ts`. -/
def usdcIssuer : String :=
  "GA5ZSEJYB37JRC5AVCIA5MOP4RHTM335X2KGX3IHOJAPP5RE34K4KZVN"

/-- The single operation of a transaction the core builds. -/
inductive TxOp
  /-- `Operation.changeTrust` for the `(code, issuer)` asset. -/
  | changeTrust (code issuer : String)
  /-- A payment of `amount` of the `(code, issuer?)` asset to `dest`. -/
  | payment (dest : String) (amount : ℚ) (code : String) (issuer : Option String)
deriving Repr, DecidableEq

/-- The transaction envelope built by `TransactionBuilder`: the builder
consumes the loaded account's sequence number and uses its successor as the
transaction's sequence, with `fee: BASE_FEE` (100 stroops) and
`.setTimeout(300)`. -/
structure BuiltTx where
  sourceSeq : Nat
  fee : Nat := 100
  timeoutSecs : Nat := 300
  op : TxOp
deriving Repr, DecidableEq

/-- Observable effects of a run: network calls, state refreshes, toasts,
preference writes. -/
inductive Ev
  | loadAccount (addr : String)
  | signHash (addr : String) (tx : BuiltTx)
  | submitTx (tx : BuiltTx)
  | refreshUser
  | refreshAccount
  | refetchMerchant
  | setStep (s : String)
  | createWalletCall (chain : String)
  | setPrimaryChainPref (v : String)
  | toastErr (msg : String)
  | toastOk (msg : String)
  | toastInfo (msg : String)
deriving Repr, DecidableEq

/-- Outcome of `server.submitTransaction`: an HTTP-200 result with
`successful: true`, an HTTP-200 result with `successful: false` (whose body
may indicate that the trustline already exists), or a thrown transport/HTTP
error carrying a message and an optional `response.data` body. -/
inductive SubmitResult
  | success (hash : String)
  | rejected (alreadyExists : Bool) (raw : String)
  | threw (message : String) (responseData : Option String)
deriving Repr, DecidableEq

/-- Modelled from the spec: `isTrustlineAlreadyExists` lives in
`src/libs/stellar/errors.ts`, which is absent from `src/`; per spec section 4.4
case (ii) it recognises a ledger rejection that reports the trustline as
already existing. In this embedding the submit outcome carries that flag. -/
def isTrustlineAlreadyExists : SubmitResult → Bool
  | .rejected true _ => true
  | _ => false

/-- Modelled from the spec: `getStellarErrorMessage` lives in
`src/libs/stellar/errors.ts`, which is absent from `src/`; per spec section 7
it translates a raw ledger error body into a human-readable message and never
shows raw codes. -/
def getStellarErrorMessage (responseData : Option String) : String :=
  match responseData with
  | some raw => "Transaction failed: " ++ raw
  | none => "Transaction failed. Please try again."

/-- The substring test `enableUsdc` / `useStellarTransfer.transfer` apply to a
signer error message to detect authentication expiry
(`message?.includes("authenticated") || message?.includes("User must be authenticated")`). -/
def authRelated (msg : String) : Bool :=
  containsSubstr "authenticated" msg || containsSubstr "User must be authenticated" msg

/-- The context values `useStellarTrustline`'s `enableUsdc` closes over. -/
structure TrustlineDeps where
  isAuthenticated : Bool
  userPresent : Bool
  publicKey : Option String
  /-- The cached account snapshot held by the Stellar provider
  (`undefined`/`null` both embed as `none`). -/
  account : Option AccountRec
  serverPresent : Bool
deriving Repr, DecidableEq

/-- Responses of the remote collaborators during one `enableUsdc` or
Stellar-transfer run. -/
structure StellarEnv where
  /-- Result of the fresh `server.loadAccount(publicKey)` read. -/
  loadAccountResult : Except String AccountRec
  /-- Result of `signRawHash` (`.error` carries the rejection message). -/
  signResult : Except String String
  /-- Whether `refreshUser()` resolves. -/
  refreshUserOk : Bool
  submitResult : SubmitResult
deriving Repr

/-- Result of one `enableUsdc` run: the effect trace plus the component state
the hook exposes (`balanceInfo` is set only by the insufficient-reserve gate,
together with `showInsufficientBalanceDialog`). -/
structure TrustlineRun where
  events : List Ev
  balanceInfo : Option (ℚ × ℚ)
  showDialog : Bool
deriving Repr, DecidableEq

/-- The native (XLM) balance `enableUsdc` computes:
`account.balances.find(b => b.asset_type === "native")`, parsed with
`parseFloat`, defaulting to `0` when no native entry exists. -/
def nativeXlmOf (acct : AccountRec) : ℚ :=
  match acct.balances.find? (fun b => b.asset_type == "native") with
  | some b => b.balance
  | none => 0

/-- The body of `enableUsdc` past the authentication and reserve gates
(`src/libs/stellar/trustline.ts` lines 58-165). -/
def enableUsdcProceed (pk : String) (serverPresent : Bool) (env : StellarEnv) :
    TrustlineRun :=
  if !serverPresent then
    -- `if (!server) return;`
    ⟨[], none, false⟩
  else
    match env.loadAccountResult with
    | .error e =>
        -- load threw; outer catch: `toastError(error.message || "Failed to enable USDC")`
        ⟨[.loadAccount pk, .toastErr (jsOrStr e "Failed to enable USDC")], none, false⟩
    | .ok freshAccount =>
        let tx : BuiltTx :=
          { sourceSeq := freshAccount.sequence + 1
            op := .changeTrust "USDC" usdcIssuer }
        match env.signResult with
        | .error m =>
            if authRelated m then
              if env.refreshUserOk then
                ⟨[.loadAccount pk, .signHash pk tx, .refreshUser,
                  .toastErr "Authentication expired. Please try again."], none, false⟩
              else
                ⟨[.loadAccount pk, .signHash pk tx, .refreshUser,
                  .toastErr "Authentication expired. Please refresh the page and log in again."],
                 none, false⟩
            else
              -- `throw signError` reaches the outer catch
              ⟨[.loadAccount pk, .signHash pk tx,
                .toastErr (jsOrStr m "Failed to enable USDC")], none, false⟩
        | .ok _signature =>
            match env.submitResult with
            | .success _h =>
                ⟨[.loadAccount pk, .signHash pk tx, .submitTx tx,
                  .toastOk "USDC trustline enabled successfully!", .refreshAccount],
                 none, false⟩
            | .rejected true _raw =>
                ⟨[.loadAccount pk, .signHash pk tx, .submitTx tx,
                  .toastInfo "USDC trustline already exists on your account", .refreshAccount],
                 none, false⟩
            | .rejected false _raw =>
                -- `throw new Error(getStellarErrorMessage(result))` is caught by the
                -- submit-level catch, whose `errors?.response?.data` is then undefined
                ⟨[.loadAccount pk, .signHash pk tx, .submitTx tx,
                  .toastErr (jsOrStr (getStellarErrorMessage none) "Failed to enable USDC")],
                 none, false⟩
            | .threw _msg responseData =>
                ⟨[.loadAccount pk, .signHash pk tx, .submitTx tx,
                  .toastErr (jsOrStr (getStellarErrorMessage responseData) "Failed to enable USDC")],
                 none, false⟩

/-- `enableUsdc` from `src/libs/stellar/trustline.ts`. -/
def enableUsdc (d : TrustlineDeps) (env : StellarEnv) : TrustlineRun :=
  if !(d.isAuthenticated && d.userPresent && d.publicKey.isSome) then
    ⟨[.toastErr "Please ensure you are logged in and try again"], none, false⟩
  else
    match d.publicKey with
    | none => ⟨[.toastErr "Please ensure you are logged in and try again"], none, false⟩
    | some pk =>
        match d.account with
        | some acct =>
            let xlmBalance := nativeXlmOf acct
            if xlmBalance < 3/2 then
              ⟨[.toastErr "Insuficient XLM Balance, please make sure at least 1.5 XLM"],
               some (xlmBalance, 3/2), true⟩
            else
              enableUsdcProceed pk d.serverPresent env
        | none => enableUsdcProceed pk d.serverPresent env

/-! ## Stellar transfer orchestrator (`useStellarTransfer.transfer`) -/

/-- A Stellar asset descriptor: code plus issuer, or native (no issuer). -/
structure StellarAsset where
  code : String
  issuer : Option String
deriving Repr, DecidableEq

/-- Modelled from the spec: `StellarConfig.getAssetByCode` lives in
`src/libs/stellar/config.ts`, which is absent from `src/`; per spec section 4.6
step 2 it is a static asset registry resolving a code to the asset descriptor
(USDC with its configured issuer — the issuer hard-coded in `trustline.ts` —
or native XLM). -/
def getAssetByCode : String → Option StellarAsset
  | "USDC" => some { code := "USDC", issuer := some usdcIssuer }
  | "XLM" => some { code := "XLM", issuer := none }
  | _ => none

/-- Modelled from the spec: `StellarPayNow` lives in
`src/libs/stellar/pay.ts`, which is absent from `src/`. Per spec sections 4.6
(step 3) and 5, and property P2, it builds the native payment transaction
using a sequence number read fresh from the ledger immediately before
construction (`server.loadAccount`), with a fixed base fee and a bounded
timeout, for the order's destination address and amount. The fresh read's
outcome is the `loadAccountResult` of the environment; the cached `account`
snapshot the caller passes is not the sequence source. -/
def StellarPayNow (token : StellarAsset) (destAddr : String) (amount : ℚ)
    (loadAccountResult : Except String AccountRec) : Except String BuiltTx :=
  match loadAccountResult with
  | .error e => .error e
  | .ok freshAccount =>
      .ok { sourceSeq := freshAccount.sequence + 1
            op := .payment destAddr amount token.code token.issuer }

/-- The payload of `useStellarTransfer.transfer`: bridge mode (API flow,
currently commented out in the source) or direct mode with an amount and a
destination address. `Number(payload.payload.amount)` is embedded as the
rational the decimal string denotes. -/
inductive TransferPayload
  | bridge
  | direct (amount : ℚ) (address : String)
deriving Repr, DecidableEq

/-- The context values `useStellarTransfer.transfer` closes over. -/
structure TransferDeps where
  userPresent : Bool
  isAuthenticated : Bool
  publicKey : Option String
  account : Option AccountRec
  serverPresent : Bool
deriving Repr, DecidableEq

/-- The `{hash, payment}` value a successful Stellar transfer resolves with
(the mock payment object of direct mode, reduced to the fields the callers
read). -/
structure StellarTransferSuccess where
  hash : String
  receivingAddress : String
  amountUnits : ℚ
deriving Repr, DecidableEq

/-- Result of one `useStellarTransfer.transfer` run: the effect trace plus
either the resolved `{hash, payment}` value or the thrown error's message. -/
structure StellarTransferRun where
  events : List Ev
  result : Except String StellarTransferSuccess
deriving Repr

/-- `useStellarTransfer.transfer` from `src/libs/stellar/transfer.ts`
(assetType defaults to `"usdc"`). -/
def stellarTransfer (d : TransferDeps) (env : StellarEnv)
    (payload : TransferPayload) (ty : String := "usdc") : StellarTransferRun :=
  if !(d.userPresent && d.isAuthenticated && d.publicKey.isSome) then
    ⟨[], .error "Please ensure you are logged in and try again"⟩
  else
    match d.publicKey with
    | none => ⟨[], .error "Please ensure you are logged in and try again"⟩
    | some pk =>
        if d.account.isSome && d.serverPresent then
          match payload with
          | .bridge =>
              -- bridge mode only sets the step; `stellarPayParams` stays
              -- undefined and the subsequent `StellarPayNow` call cannot
              -- build a transaction (the API flow is commented out)
              ⟨[.setStep "create-payment", .setStep "submit-transaction"],
               .error "Transaction failed"⟩
          | .direct amount addr =>
              match getAssetByCode (if ty == "usdc" then "USDC" else "XLM") with
              | none =>
                  -- thrown while building `stellarPayParams`, before any step change
                  ⟨[], .error "Token not found"⟩
              | some token =>
                  match StellarPayNow token addr amount env.loadAccountResult with
                  | .error e =>
                      ⟨[.setStep "submit-transaction", .loadAccount pk], .error e⟩
                  | .ok tx =>
                      match env.signResult with
                      | .error m =>
                          if authRelated m then
                            -- `try { await refreshUser(); throw A } catch { throw B }`:
                            -- the inner throw is itself caught, so B is thrown
                            -- whether or not the refresh succeeds
                            ⟨[.setStep "submit-transaction", .loadAccount pk,
                              .signHash pk tx, .refreshUser],
                             .error "Authentication expired. Please refresh the page and log in again."⟩
                          else
                            ⟨[.setStep "submit-transaction", .loadAccount pk,
                              .signHash pk tx], .error m⟩
                      | .ok _signature =>
                          match env.submitResult with
                          | .success h =>
                              ⟨[.setStep "submit-transaction", .loadAccount pk,
                                .signHash pk tx, .submitTx tx, .setStep "success"],
                               .ok { hash := h, receivingAddress := addr,
                                     amountUnits := amount }⟩
                          | .rejected _ _ =>
                              -- `successful: false` → `throw new Error("Transaction failed")`
                              ⟨[.setStep "submit-transaction", .loadAccount pk,
                                .signHash pk tx, .submitTx tx], .error "Transaction failed"⟩
                          | .threw msg _data =>
                              -- the submit call threw; rethrown unchanged
                              ⟨[.setStep "submit-transaction", .loadAccount pk,
                                .signHash pk tx, .submitTx tx], .error msg⟩
        else
          ⟨[], .error "Transaction failed"⟩

/-! ## Ledger account reader / balance aggregator (Stellar provider) -/

/-- A failed `server.loadAccount`: the distinguished 404 not-found outcome,
or any other ledger/transport error with its message. -/
inductive LoadError
  | notFound
  | other (message : String)
deriving Repr, DecidableEq

/-- Modelled from the spec: `isAccountNotFound` lives in
`src/libs/stellar/errors.ts`, which is absent from `src/`; per spec
sections 4.1 and 6 it recognises the ledger's not-found (never funded)
response, distinguished from all other load failures. -/
def isAccountNotFound : LoadError → Bool
  | .notFound => true
  | .other _ => false

/-- The provider's `accountInfo` state:
`Horizon.AccountResponse | undefined | null`. -/
inductive AccountInfoState
  | undef
  | nullState
  | loaded (acct : AccountRec)
deriving Repr, DecidableEq

/-- The normalized balance shape of `wallet.provider.tsx`
(`WalletBalanceInfo`); display values are embedded as exact rationals. -/
structure WalletBalanceInfo where
  chain : String
  asset : String
  raw_value : ℚ
  raw_value_decimals : Nat
  display_value : ℚ
deriving Repr, DecidableEq

/-- Modelled from the spec: `formatStellarBalancesAsWalletInfo` lives in
`src/libs/stellar/utils.ts`, which is absent from `src/`; per spec section 4.2
it maps each raw Stellar balance into the normalized shape, tagging the
native asset specially (no issuer) and any other asset by its code. -/
def formatStellarBalancesAsWalletInfo (bs : List StellarBalance) :
    List WalletBalanceInfo :=
  bs.map fun b =>
    if b.asset_type == "native" then
      { chain := "stellar", asset := "XLM", raw_value := b.balance,
        raw_value_decimals := 7, display_value := b.balance }
    else
      { chain := "stellar", asset := (b.asset_code.getD ""),
        raw_value := b.balance, raw_value_decimals := 7, display_value := b.balance }

/-- The configured stablecoin of `StellarConfig.USDC_ASSET` (config.ts is
absent from `src/`; the issuer is the one hard-coded in `trustline.ts`). -/
def usdcAssetCode : String := "USDC"

/-- The trustline-presence derivation of both provider versions: true iff a
balance entry matches the configured stablecoin's exact code/issuer pair;
false whenever no account snapshot is loaded. -/
def hasUsdcTrustline : AccountInfoState → Bool
  | .loaded acct =>
      acct.balances.any fun b =>
        b.asset_code == some usdcAssetCode && b.asset_issuer == some usdcIssuer
  | _ => false

/-- The `formattedBalances` memo of both provider versions: empty whenever no
account snapshot (or its balances) is loaded. -/
def formattedBalances : AccountInfoState → List WalletBalanceInfo
  | .loaded acct => formatStellarBalancesAsWalletInfo acct.balances
  | _ => []

/-- The `error.message` of a failed load. -/
def loadErrorMessage : LoadError → String
  | .notFound => "Not Found"
  | .other m => m

/-- `getAccountInfo` from `src/providers/stellar.provider.tsx` (lines 78-98):
loads the account, stores it; on the not-found outcome stores `null`
silently; on any other error keeps the prior snapshot and shows an error
toast. -/
def getAccountInfo (pk : String) (prior : AccountInfoState)
    (loadResult : Except LoadError AccountRec) : AccountInfoState × List Ev :=
  match loadResult with
  | .ok acct => (.loaded acct, [.loadAccount pk])
  | .error e =>
      if isAccountNotFound e then
        (.nullState, [.loadAccount pk])
      else
        (prior,
         [.loadAccount pk, .toastErr (jsOrStr (loadErrorMessage e) "Failed to get account info")])

/-- `refreshAccount` from the provider revision in `src/unnamed/part_007`
(lines 1081-1103): returns the latest normalized balances; the not-found
outcome clears the snapshot (to `undefined`) and returns an empty list with
no toast; other errors keep the prior snapshot, toast, and return an empty
list. -/
def refreshAccount (publicKey : Option String) (prior : AccountInfoState)
    (loadResult : Except LoadError AccountRec) :
    AccountInfoState × List WalletBalanceInfo × List Ev :=
  match publicKey with
  | none => (prior, [], [])
  | some pk =>
      match loadResult with
      | .ok acct =>
          (.loaded acct, formatStellarBalancesAsWalletInfo acct.balances,
           [.loadAccount pk])
      | .error e =>
          if isAccountNotFound e then (.undef, [], [.loadAccount pk])
          else
            (prior, [],
             [.loadAccount pk,
              .toastErr (jsOrStr (loadErrorMessage e) "Failed to get account info")])

/-! ## EVM transfer orchestrator (`useTokenTransfer.transfer`) -/

/-- The `transaction` object of a backend wallet-transfer response. -/
structure WalletTxInfo where
  hash : String
  caip2 : String
  walletId : String
deriving Repr, DecidableEq

/-- The backend wallet-transfer response
(`{success, transaction?, walletId, recipientAddress, amount, message?}`),
reduced to the fields the orchestrator reads. -/
structure WalletTransferResponse where
  success : Bool
  transaction : Option WalletTxInfo
  message : Option String
deriving Repr, DecidableEq

/-- The `status` state of `useTokenTransfer`. -/
structure TransferStatus where
  isLoading : Bool
  error : Option String
  transactionHash : Option String
  signature : Option String
  success : Bool
deriving Repr, DecidableEq

/-- The value `useTokenTransfer.transfer` resolves with: the success shape
with a transaction hash, a failure carrying an `Error` object, or the Stellar
branch's failure carrying a plain string. -/
inductive TokenTransferResult
  | ok (transactionHash : String)
  | failedErr (message : String)
  | failedStr (message : String)
deriving Repr, DecidableEq

/-- The context values `useTokenTransfer` closes over. -/
structure TokenTransferDeps where
  preferredPrimaryChain : Option String
  /-- `primaryWallet` from the wallet provider (its id). -/
  primaryWalletId : Option String
  /-- `walletsPrivy.wallets[0]` (its address). -/
  privyWalletAddr : Option String
  merchantTokenPresent : Bool
  /-- `isConnected` from the Stellar provider. -/
  stellarConnected : Bool
deriving Repr, DecidableEq

/-- Responses of the collaborators during one `useTokenTransfer.transfer`
run: the EVM provider's account/signature requests, the backend transfer
call, and the delegated Stellar transfer (which resolves with
`{hash, payment} | undefined` or rejects). -/
structure TokenTransferEnv where
  evmAccountsResult : Except String String
  evmSignResult : Except String String
  walletTransferResult : Except String WalletTransferResponse
  stellarResult : Except String (Option StellarTransferSuccess)

/-- The status value set at the start of every transfer
(`isLoading: true`, everything else cleared). -/
def loadingStatus : TransferStatus :=
  { isLoading := true, error := none, transactionHash := none,
    signature := none, success := false }

/-- The status set by every catch/failure path: loading off, the message
recorded. -/
def failedStatus (msg : String) : TransferStatus :=
  { isLoading := false, error := some msg, transactionHash := none,
    signature := none, success := false }

/-- `useTokenTransfer.transfer` (`src/unnamed/part_019` lines 85-224),
returning the resolved value (`none` embeds JavaScript `undefined`) and the
final `status` state. -/
def tokenTransfer (d : TokenTransferDeps) (env : TokenTransferEnv) :
    Option TokenTransferResult × TransferStatus :=
  if d.preferredPrimaryChain == some "USDC_BASE" && d.primaryWalletId.isSome then
    if d.privyWalletAddr.isNone || !d.merchantTokenPresent then
      (some (.failedErr "Wallet or token not available"),
       failedStatus "Wallet or token not available")
    else
      match env.evmAccountsResult with
      | .error m => (some (.failedErr m), failedStatus m)
      | .ok _account =>
          match env.evmSignResult with
          | .error m => (some (.failedErr m), failedStatus m)
          | .ok _signature =>
              match env.walletTransferResult with
              | .error m => (some (.failedErr m), failedStatus m)
              | .ok response =>
                  if response.success then
                    match response.transaction with
                    | some t =>
                        (some (.ok t.hash),
                         { isLoading := false, error := none,
                           transactionHash := some t.hash, signature := none,
                           success := true })
                    | none =>
                        let m := jsOrOpt response.message "Transfer failed"
                        (some (.failedErr m), failedStatus m)
                  else
                    let m := jsOrOpt response.message "Transfer failed"
                    (some (.failedErr m), failedStatus m)
  else if d.preferredPrimaryChain == some "USDC_XLM" && d.stellarConnected then
    match env.stellarResult with
    | .ok (some r) =>
        -- the Stellar branch never updates `status`; it stays at loading
        (some (.ok r.hash), loadingStatus)
    | .ok none =>
        (some (.failedStr "Failed to transfer with Stellar"), loadingStatus)
    | .error m => (some (.failedErr m), failedStatus m)
  else
    -- neither branch applies: the try block falls through and the function
    -- resolves with undefined, with `status` still at loading
    (none, loadingStatus)

/-! ## Primary-chain selector (`handleSwitchWallet` / `handleCreateWallet`) -/

/-- One entry of the authenticated user's `linked_accounts`. -/
structure LinkedAccount where
  type : String
  wallet_client_type : String
  chain_type : String
deriving Repr, DecidableEq

/-- The context values `handleSwitchWallet` closes over: the user's linked
accounts (when a user is present), whether a merchant is loaded, and the
current preference. -/
structure SwitchDeps where
  userAccounts : Option (List LinkedAccount)
  merchantPresent : Bool
  preferredPrimaryChain : Option String
deriving Repr, DecidableEq

/-- Responses of the collaborators during one switch: the wallet-creation
call, the `refreshUser()` after creation, the profile update, and the
merchant refetch. -/
structure SwitchEnv where
  createWalletResult : Except String Unit
  refreshUserOk : Bool
  updateProfileResult : Except String Unit
  refetchMerchantOk : Bool

/-- `handleCreateWallet` from `src/providers/wallet.provider.tsx`
(lines 170-210), for a present user with the given linked accounts: creates a
wallet for the chain only when no embedded (privy) wallet for that chain
exists, then refreshes the user; errors propagate. -/
def handleCreateWallet (accounts : List LinkedAccount) (chain : String)
    (env : SwitchEnv) : List Ev × Except String Unit :=
  let hasEmbeddedWalletForChain :=
    accounts.any fun a =>
      a.type == "wallet" && a.wallet_client_type == "privy" && a.chain_type == chain
  if hasEmbeddedWalletForChain then ([], .ok ())
  else
    match env.createWalletResult with
    | .error e => ([.createWalletCall chain], .error e)
    | .ok () =>
        if env.refreshUserOk then ([.createWalletCall chain, .refreshUser], .ok ())
        else ([.createWalletCall chain, .refreshUser], .error "Failed to refresh user")

/-- `handleSwitchWallet` from `src/providers/wallet.provider.tsx`
(lines 254-290), returning the effect trace and the final preference value. -/
def handleSwitchWallet (d : SwitchDeps) (env : SwitchEnv) :
    List Ev × Option String :=
  match d.userAccounts, d.merchantPresent with
  | some accounts, true =>
      let preferredBeforeChanged :=
        if d.preferredPrimaryChain == some "USDC_BASE" then "stellar" else "ethereum"
      let isPreferredExist :=
        accounts.any fun a =>
          a.type == "wallet" && a.chain_type == preferredBeforeChanged
      let created :=
        if isPreferredExist then ([], Except.ok ())
        else handleCreateWallet accounts preferredBeforeChanged env
      match created.2 with
      | .error _ =>
          (created.1 ++ [.toastErr "Failed to switch wallet"], d.preferredPrimaryChain)
      | .ok () =>
          let newPrimaryChain :=
            if d.preferredPrimaryChain == some "USDC_BASE" then "USDC_XLM" else "USDC_BASE"
          match env.updateProfileResult with
          | .error _ =>
              (created.1 ++ [.toastErr "Failed to switch wallet"], d.preferredPrimaryChain)
          | .ok () =>
              if env.refetchMerchantOk then
                (created.1 ++
                 [.setPrimaryChainPref newPrimaryChain, .refetchMerchant,
                  .toastOk "Wallet switched successfully!"], some newPrimaryChain)
              else
                -- refetch threw after the preference already flipped
                (created.1 ++
                 [.setPrimaryChainPref newPrimaryChain, .refetchMerchant,
                  .toastErr "Failed to switch wallet"], some newPrimaryChain)
  | _, _ => ([], d.preferredPrimaryChain)

/-! ## Concrete fixtures -/

/-- A funded account with 10 XLM and a 25.50 USDC trustline balance. -/
def acctFunded : AccountRec :=
  { sequence := 41
    balances :=
      [ { asset_type := "native", balance := 10 },
        { asset_type := "credit_alphanum4", asset_code := some "USDC",
          asset_issuer := some usdcIssuer, balance := 51/2 } ] }

/-- An account whose native balance 1.20 is below the 1.5 activation
threshold. -/
def acctLow : AccountRec :=
  { sequence := 7, balances := [{ asset_type := "native", balance := 6/5 }] }

/-- An all-successful collaborator environment. -/
def envOk : StellarEnv :=
  { loadAccountResult := .ok acctFunded
    signResult := .ok "0xsig"
    refreshUserOk := true
    submitResult := .success "txhash1" }

/-- The trustline deps of the C1 witness: a stale cached snapshot
(sequence 41) while the fresh read returns sequence 7. -/
def dFreshCheck : TrustlineDeps :=
  { isAuthenticated := true, userPresent := true, publicKey := some "GPKC",
    account := some acctFunded, serverPresent := true }

/-- The transfer deps of the C1 witness. -/
def dTransferFresh : TransferDeps :=
  { userPresent := true, isAuthenticated := true, publicKey := some "GPKC",
    account := some acctFunded, serverPresent := true }

/-- The environment of the C1 witness: the fresh read returns `acctLow`
(sequence 7), everything else succeeds. -/
def envFresh : StellarEnv :=
  { loadAccountResult := .ok acctLow, signResult := .ok "0xsig",
    refreshUserOk := true, submitResult := .success "h1" }

/-- The error-toast messages of a trustline run, in order: the user-facing
errors `enableUsdc` surfaces. -/
def trustlineToastErrs (r : TrustlineRun) : List String :=
  r.events.filterMap fun e =>
    match e with
    | .toastErr m => some m
    | _ => none

/-- A retry-suggesting message (the formalisation of the spec's "suggests
retrying"): it tells the user to try/do it again. -/
def suggestsRetry (msg : String) : Bool :=
  containsSubstr "again" msg

/-- The chain-preference-relevant effects of a wallet-switch run: wallet
creations and preference writes. -/
def isCreateOrPrefEv : Ev → Bool
  | .createWalletCall _ => true
  | .setPrimaryChainPref _ => true
  | _ => false

/-- The soft-success outcome of a trustline run: the informational
already-exists toast plus an account refresh, and no error toast raised. -/
def softTrustlineSuccess (r : TrustlineRun) : Prop :=
  Ev.toastInfo "USDC trustline already exists on your account" ∈ r.events ∧
  Ev.refreshAccount ∈ r.events ∧
  ∀ m, Ev.toastErr m ∉ r.events

/-- The hypotheses of the already-exists scenario: a logged-in caller with a
live server whose cached snapshot (if any) passes the reserve gate, a
working fresh read and signer, and a ledger that rejects the change-trust
submission reporting the trustline as already existing. -/
def alreadyExistsScenario (d : TrustlineDeps) (env : StellarEnv) : Prop :=
  d.isAuthenticated = true ∧ d.userPresent = true ∧ d.publicKey.isSome = true ∧
  d.serverPresent = true ∧
  (∀ acct, d.account = some acct → ¬ nativeXlmOf acct < 3/2) ∧
  (∃ fresh, env.loadAccountResult = Except.ok fresh) ∧
  (∃ s, env.signResult = Except.ok s) ∧
  (∃ raw, env.submitResult = SubmitResult.rejected true raw)

/-- An environment whose ledger rejects the change-trust submission because
the trustline already exists. -/
def envAlreadyExists : StellarEnv :=
  { loadAccountResult := .ok acctFunded, signResult := .ok "0xsig",
    refreshUserOk := true,
    submitResult := .rejected true "op_already_exists" }

/-- An environment whose signer rejects with an authentication-related
message. -/
def envAuthExpired : StellarEnv :=
  { loadAccountResult := .ok acctFunded,
    signResult := .error "User must be authenticated",
    refreshUserOk := true, submitResult := .success "h1" }

/-- An environment whose signer rejects with a non-authentication message. -/
def envSignRejected : StellarEnv :=
  { loadAccountResult := .ok acctFunded,
    signResult := .error "User rejected the request",
    refreshUserOk := true, submitResult := .success "h1" }

/-- A fully logged-in caller (user, authentication, public key) whose ledger
connection is absent. -/
def dNoServer : TransferDeps :=
  { userPresent := true, isAuthenticated := true, publicKey := some "GPKD",
    account := some acctFunded, serverPresent := false }

/-- A caller with no authenticated user. -/
def dNoUser : TransferDeps :=
  { userPresent := false, isAuthenticated := false, publicKey := none,
    account := none, serverPresent := false }

/-- Scenario B's backend response: success with transaction hash
`0xdeadbeef`. -/
def respDeadbeef : WalletTransferResponse :=
  { success := true,
    transaction := some { hash := "0xdeadbeef", caip2 := "eip155:8453",
                          walletId := "w1" },
    message := none }

/-- A structured backend denial with a message and no transaction. -/
def respDenied : WalletTransferResponse :=
  { success := false, transaction := none, message := some "Insufficient balance" }

/-- EVM-ready token-transfer deps: Base preferred, wallet and token
available. -/
def dEvmReady : TokenTransferDeps :=
  { preferredPrimaryChain := some "USDC_BASE", primaryWalletId := some "w1",
    privyWalletAddr := some "0xMERCHANT", merchantTokenPresent := true,
    stellarConnected := false }

/-- Base preferred but no primary wallet available. -/
def dNoPrimaryWallet : TokenTransferDeps :=
  { preferredPrimaryChain := some "USDC_BASE", primaryWalletId := none,
    privyWalletAddr := none, merchantTokenPresent := true,
    stellarConnected := false }

/-- Stellar preferred but the Stellar connection not established. -/
def dStellarDisconnected : TokenTransferDeps :=
  { preferredPrimaryChain := some "USDC_XLM", primaryWalletId := some "w1",
    privyWalletAddr := some "0xMERCHANT", merchantTokenPresent := true,
    stellarConnected := false }

/-- A token-transfer environment whose backend returns `resp`. -/
def envTokenWith (resp : WalletTransferResponse) : TokenTransferEnv :=
  { evmAccountsResult := .ok "0xMERCHANT", evmSignResult := .ok "0xsig",
    walletTransferResult := .ok resp, stellarResult := .ok none }

/-! ## Theorems -/

/-- **C2.** For every call to `enableUsdc()` by a logged-in caller whose
cached account snapshot has a native (XLM) balance strictly below the 1.5
activation threshold, the run returns the distinguished insufficient-balance
outcome carrying `{current, required}` (the dialog state plus `balanceInfo`),
and its entire effect trace is the one insufficiency toast — in particular
zero ledger-write calls: no account load, no signature request, no
transaction submission. -/
theorem C2_insufficient_reserve_gate (d : TrustlineDeps) (env : StellarEnv)
    (acct : AccountRec) (pk : String)
    (hauth : d.isAuthenticated = true) (huser : d.userPresent = true)
    (hpk : d.publicKey = some pk) (hacct : d.account = some acct)
    (hlow : nativeXlmOf acct < 3/2) :
    enableUsdc d env =
      ⟨[.toastErr "Insuficient XLM Balance, please make sure at least 1.5 XLM"],
       some (nativeXlmOf acct, 3/2), true⟩ := by
  unfold enableUsdc
  rw [hauth, huser, hpk, hacct]
  simp [hlow]

/-- Witness for C2 at Scenario C's input: native balance 1.20, threshold
1.5, yielding `{current: 1.2, required: 1.5}` and only the toast. -/
theorem C2_insufficient_reserve_gate_witness :
    enableUsdc
      { isAuthenticated := true, userPresent := true, publicKey := some "GPKA",
        account := some acctLow, serverPresent := true } envOk =
      ⟨[.toastErr "Insuficient XLM Balance, please make sure at least 1.5 XLM"],
       some (6/5, 3/2), true⟩ := by
  have h := C2_insufficient_reserve_gate
    { isAuthenticated := true, userPresent := true, publicKey := some "GPKA",
      account := some acctLow, serverPresent := true } envOk acctLow "GPKA"
    rfl rfl rfl rfl (by norm_num [nativeXlmOf, acctLow])
  rw [h]
  norm_num [nativeXlmOf, acctLow]

/-- Every run of the post-gate body (with a live server) leaves the
insufficient-balance outcome unset and opens with the fresh account read. -/
lemma enableUsdcProceed_shape (pk : String) (env : StellarEnv) :
    (enableUsdcProceed pk true env).balanceInfo = none ∧
    (enableUsdcProceed pk true env).showDialog = false ∧
    ∃ rest, (enableUsdcProceed pk true env).events = Ev.loadAccount pk :: rest := by
  unfold enableUsdcProceed
  repeat' split
  all_goals simp_all

/-- When the fresh read and the signature both succeed, the post-gate body
submits the change-trust transaction built on the fresh sequence number. -/
lemma enableUsdcProceed_submits (pk : String) (env : StellarEnv)
    (fresh : AccountRec) (s : String)
    (hload : env.loadAccountResult = Except.ok fresh)
    (hsign : env.signResult = Except.ok s) :
    Ev.submitTx ⟨fresh.sequence + 1, 100, 300, .changeTrust "USDC" usdcIssuer⟩
      ∈ (enableUsdcProceed pk true env).events := by
  unfold enableUsdcProceed
  rw [hload, hsign]
  cases env.submitResult with
  | success h => simp
  | rejected ae raw => cases ae <;> simp
  | threw m rd => simp

/-- **C9.** When an authenticated caller with a known public key invokes
`enableUsdc()` while the cached account snapshot is absent, the
insufficient-reserve gate is skipped entirely: the run equals the post-gate
body (no balance comparison ever happens, so the insufficient outcome is
never produced, whatever the real balance), it starts with a fresh account
load, and — when the fresh read and the signature succeed — it proceeds all
the way to submitting the change-trust transaction. -/
theorem C9_gate_skipped_without_snapshot (d : TrustlineDeps) (env : StellarEnv)
    (pk : String)
    (hauth : d.isAuthenticated = true) (huser : d.userPresent = true)
    (hpk : d.publicKey = some pk) (hacct : d.account = none)
    (hserver : d.serverPresent = true) :
    enableUsdc d env = enableUsdcProceed pk true env ∧
    (enableUsdc d env).balanceInfo = none ∧
    (enableUsdc d env).showDialog = false ∧
    (∃ rest, (enableUsdc d env).events = Ev.loadAccount pk :: rest) ∧
    (∀ fresh s, env.loadAccountResult = Except.ok fresh →
       env.signResult = Except.ok s →
       Ev.submitTx ⟨fresh.sequence + 1, 100, 300, .changeTrust "USDC" usdcIssuer⟩
         ∈ (enableUsdc d env).events) := by
  have hrun : enableUsdc d env = enableUsdcProceed pk true env := by
    unfold enableUsdc
    rw [hauth, huser, hpk, hacct, hserver]
    simp
  obtain ⟨h1, h2, h3⟩ := enableUsdcProceed_shape pk env
  refine ⟨hrun, ?_, ?_, ?_, ?_⟩
  · rw [hrun]; exact h1
  · rw [hrun]; exact h2
  · rw [hrun]; exact h3
  · intro fresh s hload hsign
    rw [hrun]
    exact enableUsdcProceed_submits pk env fresh s hload hsign

/-- Witness for C9: no snapshot, balance gate skipped, full pipeline runs
and submits with the fresh sequence number 42. -/
theorem C9_gate_skipped_without_snapshot_witness :
    enableUsdc
      { isAuthenticated := true, userPresent := true, publicKey := some "GPKB",
        account := none, serverPresent := true } envOk =
      enableUsdcProceed "GPKB" true envOk ∧
    Ev.submitTx ⟨42, 100, 300, .changeTrust "USDC" usdcIssuer⟩
      ∈ (enableUsdc
          { isAuthenticated := true, userPresent := true, publicKey := some "GPKB",
            account := none, serverPresent := true } envOk).events := by
  have h := C9_gate_skipped_without_snapshot
    { isAuthenticated := true, userPresent := true, publicKey := some "GPKB",
      account := none, serverPresent := true } envOk "GPKB"
    rfl rfl rfl rfl rfl
  exact ⟨h.1, h.2.2.2.2 acctFunded "0xsig" rfl rfl⟩

/-- Every `enableUsdc` run is either a single error toast (a failed gate) or
the post-gate body for the caller's public key. -/
lemma enableUsdc_eq_proceed_or_toast (d : TrustlineDeps) (env : StellarEnv) :
    (∃ m bi sd, enableUsdc d env = ⟨[.toastErr m], bi, sd⟩) ∨
    (∃ pk, d.publicKey = some pk ∧
       enableUsdc d env = enableUsdcProceed pk d.serverPresent env) := by
  obtain ⟨auth, user, pkOpt, accountOpt, server⟩ := d
  cases auth with
  | false => exact .inl ⟨_, _, _, rfl⟩
  | true =>
    cases user with
    | false => exact .inl ⟨_, _, _, rfl⟩
    | true =>
      cases pkOpt with
      | none => exact .inl ⟨_, _, _, rfl⟩
      | some pk =>
        cases accountOpt with
        | none => exact .inr ⟨pk, rfl, rfl⟩
        | some acct =>
          by_cases hl : nativeXlmOf acct < 3/2
          · refine .inl ⟨"Insuficient XLM Balance, please make sure at least 1.5 XLM",
              some (nativeXlmOf acct, 3/2), true, ?_⟩
            unfold enableUsdc
            simp [hl]
          · refine .inr ⟨pk, rfl, ?_⟩
            unfold enableUsdc
            simp [hl]

/-- Inversion for a submitted change-trust transaction: the submit only
happens after a successful fresh account read, the transaction's sequence is
the fresh read's successor, and the trace is literally
read-then-sign-then-submit. -/
lemma enableUsdcProceed_submit_inv (pk : String) (sv : Bool) (env : StellarEnv)
    (tx : BuiltTx)
    (h : Ev.submitTx tx ∈ (enableUsdcProceed pk sv env).events) :
    ∃ fresh rest, env.loadAccountResult = Except.ok fresh ∧
      tx.sourceSeq = fresh.sequence + 1 ∧
      (enableUsdcProceed pk sv env).events
        = Ev.loadAccount pk :: Ev.signHash pk tx :: Ev.submitTx tx :: rest := by
  cases sv with
  | false => simp [enableUsdcProceed] at h
  | true =>
    obtain ⟨load, sign, refr, submit⟩ := env
    unfold enableUsdcProceed at h ⊢
    cases load with
    | error e => simp at h
    | ok fresh =>
      cases sign with
      | error m =>
        by_cases ha : authRelated m
        · cases refr <;> simp [ha] at h
        · simp [ha] at h
      | ok s =>
        cases submit with
        | success hh =>
          simp at h
          subst h
          exact ⟨fresh, _, rfl, rfl, rfl⟩
        | rejected ae raw =>
          cases ae <;> simp at h <;> (subst h; exact ⟨fresh, _, rfl, rfl, rfl⟩)
        | threw m rd =>
          simp at h
          subst h
          exact ⟨fresh, _, rfl, rfl, rfl⟩

/-- Inversion for a submitted Stellar payment: the submit only happens after
the fresh account read performed inside the payment builder, the
transaction's sequence is the fresh read's successor, and the trace orders
read, sign, submit. -/
lemma stellarTransfer_submit_inv (d : TransferDeps) (env : StellarEnv)
    (payload : TransferPayload) (ty : String) (tx : BuiltTx)
    (h : Ev.submitTx tx ∈ (stellarTransfer d env payload ty).events) :
    ∃ pk fresh rest, d.publicKey = some pk ∧
      env.loadAccountResult = Except.ok fresh ∧
      tx.sourceSeq = fresh.sequence + 1 ∧
      (stellarTransfer d env payload ty).events
        = Ev.setStep "submit-transaction" :: Ev.loadAccount pk ::
            Ev.signHash pk tx :: Ev.submitTx tx :: rest := by
  obtain ⟨user, auth, pkOpt, accountOpt, server⟩ := d
  cases user with
  | false => simp [stellarTransfer] at h
  | true =>
  cases auth with
  | false => simp [stellarTransfer] at h
  | true =>
  cases pkOpt with
  | none => simp [stellarTransfer] at h
  | some pk =>
  cases accountOpt with
  | none => simp [stellarTransfer] at h
  | some acct =>
  cases server with
  | false => simp [stellarTransfer] at h
  | true =>
  cases payload with
  | bridge => simp [stellarTransfer] at h
  | direct amount addr =>
  obtain ⟨token, htok⟩ :
      ∃ token, getAssetByCode (if ty == "usdc" then "USDC" else "XLM") = some token := by
    by_cases hty : (ty == "usdc") = true
    · exact ⟨{ code := "USDC", issuer := some usdcIssuer }, by simp [hty, getAssetByCode]⟩
    · exact ⟨{ code := "XLM", issuer := none }, by simp [hty, getAssetByCode]⟩
  simp only [beq_iff_eq] at htok
  obtain ⟨load, sign, refr, submit⟩ := env
  cases load with
  | error e => simp [stellarTransfer, htok, StellarPayNow] at h
  | ok fresh =>
    cases sign with
    | error m =>
      by_cases ha : authRelated m <;>
        simp [stellarTransfer, htok, StellarPayNow, ha] at h
    | ok s =>
      cases submit with
      | success hsh =>
        simp [stellarTransfer, htok, StellarPayNow] at h
        subst h
        refine ⟨pk, fresh, [Ev.setStep "success"], rfl, rfl, rfl, ?_⟩
        simp [stellarTransfer, htok, StellarPayNow]
      | rejected ae raw =>
        simp [stellarTransfer, htok, StellarPayNow] at h
        subst h
        refine ⟨pk, fresh, [], rfl, rfl, rfl, ?_⟩
        simp [stellarTransfer, htok, StellarPayNow]
      | threw m rd =>
        simp [stellarTransfer, htok, StellarPayNow] at h
        subst h
        refine ⟨pk, fresh, [], rfl, rfl, rfl, ?_⟩
        simp [stellarTransfer, htok, StellarPayNow]

/-- **C1.** Sequence freshness: in both orchestrators, whenever a transaction
is submitted, its sequence number is the successor of the sequence returned
by the fresh `loadAccount` read of that very run — never the cached
`account` snapshot (which neither conclusion mentions) — and the trace
orders the fresh read before signing and submission. -/
theorem C1_sequence_freshness :
    (∀ (d : TrustlineDeps) (env : StellarEnv) (tx : BuiltTx),
       Ev.submitTx tx ∈ (enableUsdc d env).events →
       ∃ pk fresh rest, d.publicKey = some pk ∧
         env.loadAccountResult = Except.ok fresh ∧
         tx.sourceSeq = fresh.sequence + 1 ∧
         (enableUsdc d env).events
           = Ev.loadAccount pk :: Ev.signHash pk tx :: Ev.submitTx tx :: rest) ∧
    (∀ (d : TransferDeps) (env : StellarEnv) (payload : TransferPayload)
       (ty : String) (tx : BuiltTx),
       Ev.submitTx tx ∈ (stellarTransfer d env payload ty).events →
       ∃ pk fresh rest, d.publicKey = some pk ∧
         env.loadAccountResult = Except.ok fresh ∧
         tx.sourceSeq = fresh.sequence + 1 ∧
         (stellarTransfer d env payload ty).events
           = Ev.setStep "submit-transaction" :: Ev.loadAccount pk ::
               Ev.signHash pk tx :: Ev.submitTx tx :: rest) := by
  constructor
  · intro d env tx h
    rcases enableUsdc_eq_proceed_or_toast d env with ⟨m, bi, sd, heq⟩ | ⟨pk, hpk, heq⟩
    · rw [heq] at h
      simp at h
    · rw [heq] at h
      obtain ⟨fresh, rest, h1, h2, h3⟩ :=
        enableUsdcProceed_submit_inv pk d.serverPresent env tx h
      exact ⟨pk, fresh, rest, hpk, h1, h2, by rw [heq]; exact h3⟩
  · intro d env payload ty tx h
    exact stellarTransfer_submit_inv d env payload ty tx h

/-- Witness for C1: both orchestrators run against a cached snapshot whose
sequence (41) differs from the fresh read's (7); the submitted transactions
use the fresh sequence's successor 8, never 42. -/
theorem C1_sequence_freshness_witness :
    (Ev.submitTx ⟨8, 100, 300, .changeTrust "USDC" usdcIssuer⟩
       ∈ (enableUsdc dFreshCheck envFresh).events) ∧
    (∃ pk fresh rest, dFreshCheck.publicKey = some pk ∧
       envFresh.loadAccountResult = Except.ok fresh ∧
       (⟨8, 100, 300, .changeTrust "USDC" usdcIssuer⟩ : BuiltTx).sourceSeq
         = fresh.sequence + 1 ∧
       (enableUsdc dFreshCheck envFresh).events
         = Ev.loadAccount pk
             :: Ev.signHash pk ⟨8, 100, 300, .changeTrust "USDC" usdcIssuer⟩
             :: Ev.submitTx ⟨8, 100, 300, .changeTrust "USDC" usdcIssuer⟩ :: rest) ∧
    (Ev.submitTx ⟨8, 100, 300, .payment "GDEST" (25/2) "USDC" (some usdcIssuer)⟩
       ∈ (stellarTransfer dTransferFresh envFresh
            (.direct (25/2) "GDEST") "usdc").events) ∧
    (∃ pk fresh rest, dTransferFresh.publicKey = some pk ∧
       envFresh.loadAccountResult = Except.ok fresh ∧
       (⟨8, 100, 300, .payment "GDEST" (25/2) "USDC" (some usdcIssuer)⟩ : BuiltTx).sourceSeq
         = fresh.sequence + 1 ∧
       (stellarTransfer dTransferFresh envFresh (.direct (25/2) "GDEST") "usdc").events
         = Ev.setStep "submit-transaction" :: Ev.loadAccount pk
             :: Ev.signHash pk ⟨8, 100, 300, .payment "GDEST" (25/2) "USDC" (some usdcIssuer)⟩
             :: Ev.submitTx ⟨8, 100, 300, .payment "GDEST" (25/2) "USDC" (some usdcIssuer)⟩
             :: rest) := by
  have hrun : enableUsdc dFreshCheck envFresh =
      ⟨[Ev.loadAccount "GPKC",
        Ev.signHash "GPKC" ⟨8, 100, 300, .changeTrust "USDC" usdcIssuer⟩,
        Ev.submitTx ⟨8, 100, 300, .changeTrust "USDC" usdcIssuer⟩,
        Ev.toastOk "USDC trustline enabled successfully!", Ev.refreshAccount],
       none, false⟩ := by
    unfold dFreshCheck envFresh enableUsdc enableUsdcProceed
    norm_num [nativeXlmOf, acctFunded, acctLow]
  have hmem : Ev.submitTx ⟨8, 100, 300, .changeTrust "USDC" usdcIssuer⟩
      ∈ (enableUsdc dFreshCheck envFresh).events := by
    rw [hrun]; simp
  have hrun2 : stellarTransfer dTransferFresh envFresh (.direct (25/2) "GDEST") "usdc" =
      ⟨[Ev.setStep "submit-transaction", Ev.loadAccount "GPKC",
        Ev.signHash "GPKC" ⟨8, 100, 300, .payment "GDEST" (25/2) "USDC" (some usdcIssuer)⟩,
        Ev.submitTx ⟨8, 100, 300, .payment "GDEST" (25/2) "USDC" (some usdcIssuer)⟩,
        Ev.setStep "success"],
       .ok { hash := "h1", receivingAddress := "GDEST", amountUnits := 25/2 }⟩ := by
    unfold dTransferFresh envFresh stellarTransfer StellarPayNow
    norm_num [getAssetByCode, acctLow]
  have hmem2 : Ev.submitTx ⟨8, 100, 300, .payment "GDEST" (25/2) "USDC" (some usdcIssuer)⟩
      ∈ (stellarTransfer dTransferFresh envFresh (.direct (25/2) "GDEST") "usdc").events := by
    rw [hrun2]; simp
  exact ⟨hmem, C1_sequence_freshness.1 _ _ _ hmem, hmem2,
    C1_sequence_freshness.2 _ _ _ _ _ hmem2⟩

/-- A logged-in caller with a live server whose snapshot passes the reserve
gate runs exactly the post-gate body. -/
lemma enableUsdc_eq_proceed (d : TrustlineDeps) (env : StellarEnv) (pk : String)
    (hauth : d.isAuthenticated = true) (huser : d.userPresent = true)
    (hpkeq : d.publicKey = some pk) (hserver : d.serverPresent = true)
    (hgate : ∀ acct, d.account = some acct → ¬ nativeXlmOf acct < 3/2) :
    enableUsdc d env = enableUsdcProceed pk true env := by
  unfold enableUsdc
  rw [hauth, huser, hpkeq]
  cases hacct : d.account with
  | none => simp [hserver]
  | some acct => simp [hserver, hgate acct hacct]

/-- In the already-exists scenario a trustline run is a soft success: the
informational toast, an account refresh, and no error toast. -/
lemma alreadyExists_soft (d : TrustlineDeps) (env : StellarEnv)
    (h : alreadyExistsScenario d env) :
    softTrustlineSuccess (enableUsdc d env) := by
  obtain ⟨hauth, huser, hpk, hserver, hgate, ⟨fresh, hload⟩, ⟨s, hsign⟩,
    ⟨raw, hsub⟩⟩ := h
  obtain ⟨pk, hpkeq⟩ := Option.isSome_iff_exists.mp hpk
  rw [enableUsdc_eq_proceed d env pk hauth huser hpkeq hserver hgate]
  unfold enableUsdcProceed
  rw [hload, hsign, hsub]
  refine ⟨by simp, by simp, ?_⟩
  intro m
  simp

/-- **C3.** `enableUsdc()` is idempotent from the user's perspective: when
the ledger rejects the change-trust submission because the trustline already
exists, the run is a soft success (informational toast plus account refresh,
no error raised) — so two calls in immediate succession against an account
that already holds the trustline are soft successes both times. -/
theorem C3_trustline_idempotent (d₁ : TrustlineDeps) (env₁ : StellarEnv)
    (d₂ : TrustlineDeps) (env₂ : StellarEnv)
    (h₁ : alreadyExistsScenario d₁ env₁) (h₂ : alreadyExistsScenario d₂ env₂) :
    softTrustlineSuccess (enableUsdc d₁ env₁) ∧
    softTrustlineSuccess (enableUsdc d₂ env₂) :=
  ⟨alreadyExists_soft d₁ env₁ h₁, alreadyExists_soft d₂ env₂ h₂⟩

/-- Witness for C3: the same logged-in caller invokes the activator twice
while the ledger reports the trustline as already existing; both runs are
soft successes. -/
theorem C3_trustline_idempotent_witness :
    softTrustlineSuccess (enableUsdc dFreshCheck envAlreadyExists) ∧
    softTrustlineSuccess (enableUsdc dFreshCheck envAlreadyExists) := by
  have hscen : alreadyExistsScenario dFreshCheck envAlreadyExists := by
    refine ⟨rfl, rfl, rfl, rfl, ?_, ⟨acctFunded, rfl⟩, ⟨"0xsig", rfl⟩,
      ⟨"op_already_exists", rfl⟩⟩
    intro acct heq
    cases heq
    norm_num [nativeXlmOf, acctFunded]
  exact C3_trustline_idempotent dFreshCheck envAlreadyExists dFreshCheck
    envAlreadyExists hscen hscen

/-- **C4.** In both the Trustline Activator and the Stellar Transfer
Orchestrator, a signer rejection with an authentication-related message
triggers a session refresh, and the user-facing error (the error toast for
the activator, the rejection message for the transfer) always differs from
the raw signer message and always suggests retrying, whether or not the
refresh succeeds; any other signer error propagates unchanged (for the
activator, as the toast of its own message), with no refresh attempted. -/
theorem C4_auth_expiry_remediation :
    (∀ (d : TrustlineDeps) (env : StellarEnv) (pk m : String),
       d.isAuthenticated = true → d.userPresent = true →
       d.publicKey = some pk → d.serverPresent = true →
       (∀ acct, d.account = some acct → ¬ nativeXlmOf acct < 3/2) →
       (∃ fresh, env.loadAccountResult = Except.ok fresh) →
       env.signResult = Except.error m →
       (authRelated m = true →
          Ev.refreshUser ∈ (enableUsdc d env).events ∧
          ∃ out, trustlineToastErrs (enableUsdc d env) = [out] ∧
            out ≠ m ∧ suggestsRetry out = true) ∧
       (authRelated m = false → m ≠ "" →
          trustlineToastErrs (enableUsdc d env) = [m] ∧
          Ev.refreshUser ∉ (enableUsdc d env).events)) ∧
    (∀ (d : TransferDeps) (env : StellarEnv) (amount : ℚ)
       (addr ty pk m : String) (fresh : AccountRec),
       d.userPresent = true → d.isAuthenticated = true →
       d.publicKey = some pk → d.account.isSome = true → d.serverPresent = true →
       env.loadAccountResult = Except.ok fresh →
       env.signResult = Except.error m →
       (authRelated m = true →
          Ev.refreshUser ∈ (stellarTransfer d env (.direct amount addr) ty).events ∧
          (stellarTransfer d env (.direct amount addr) ty).result
            = Except.error
                "Authentication expired. Please refresh the page and log in again." ∧
          ("Authentication expired. Please refresh the page and log in again." : String)
            ≠ m ∧
          suggestsRetry
            "Authentication expired. Please refresh the page and log in again." = true) ∧
       (authRelated m = false →
          (stellarTransfer d env (.direct amount addr) ty).result = Except.error m ∧
          Ev.refreshUser ∉ (stellarTransfer d env (.direct amount addr) ty).events)) := by
  constructor
  · intro d env pk m hauth huser hpkeq hserver hgate hloadE hsign
    obtain ⟨fresh, hload⟩ := hloadE
    have hrun := enableUsdc_eq_proceed d env pk hauth huser hpkeq hserver hgate
    constructor
    · intro ha
      rw [hrun]
      unfold enableUsdcProceed
      rw [hload, hsign]
      cases hrf : env.refreshUserOk
      · refine ⟨by simp [ha, hrf],
          "Authentication expired. Please refresh the page and log in again.",
          by simp [ha, hrf, trustlineToastErrs], ?_, by decide⟩
        intro heq
        rw [← heq] at ha
        exact absurd ha (by decide)
      · refine ⟨by simp [ha, hrf],
          "Authentication expired. Please try again.",
          by simp [ha, hrf, trustlineToastErrs], ?_, by decide⟩
        intro heq
        rw [← heq] at ha
        exact absurd ha (by decide)
    · intro ha hm
      rw [hrun]
      unfold enableUsdcProceed
      rw [hload, hsign]
      exact ⟨by simp [ha, trustlineToastErrs, jsOrStr, hm], by simp [ha]⟩
  · intro d env amount addr ty pk m fresh huser hauth hpkeq hacct hserver
      hload hsign
    obtain ⟨token, htok⟩ :
        ∃ token, getAssetByCode (if ty == "usdc" then "USDC" else "XLM") = some token := by
      by_cases hty : (ty == "usdc") = true
      · exact ⟨{ code := "USDC", issuer := some usdcIssuer },
          by simp [hty, getAssetByCode]⟩
      · exact ⟨{ code := "XLM", issuer := none }, by simp [hty, getAssetByCode]⟩
    simp only [beq_iff_eq] at htok
    obtain ⟨user, auth, pkOpt, accountOpt, server⟩ := d
    cases user with
    | false => simp at huser
    | true =>
    cases auth with
    | false => simp at hauth
    | true =>
    cases pkOpt with
    | none => simp at hpkeq
    | some pk' =>
    cases accountOpt with
    | none => simp at hacct
    | some acct =>
    cases server with
    | false => simp at hserver
    | true =>
    have hpk' : pk' = pk := by
      simpa using hpkeq
    subst hpk'
    constructor
    · intro ha
      refine ⟨?_, ?_, ?_, by decide⟩
      · simp [stellarTransfer, htok, StellarPayNow, hload, hsign, ha]
      · simp [stellarTransfer, htok, StellarPayNow, hload, hsign, ha]
      · intro heq
        rw [← heq] at ha
        exact absurd ha (by decide)
    · intro ha
      exact ⟨by simp [stellarTransfer, htok, StellarPayNow, hload, hsign, ha],
        by simp [stellarTransfer, htok, StellarPayNow, hload, hsign, ha]⟩

/-- Witness for C4: both orchestrators hit the signer with an
authentication-expired rejection (remediated, reworded, retry-suggesting)
and with an unrelated rejection (propagated verbatim). -/
theorem C4_auth_expiry_remediation_witness :
    (Ev.refreshUser ∈ (enableUsdc dFreshCheck envAuthExpired).events ∧
     ∃ out, trustlineToastErrs (enableUsdc dFreshCheck envAuthExpired) = [out] ∧
       out ≠ "User must be authenticated" ∧ suggestsRetry out = true) ∧
    (trustlineToastErrs (enableUsdc dFreshCheck envSignRejected)
       = ["User rejected the request"] ∧
     Ev.refreshUser ∉ (enableUsdc dFreshCheck envSignRejected).events) ∧
    (Ev.refreshUser
       ∈ (stellarTransfer dTransferFresh envAuthExpired
            (.direct (25/2) "GDEST") "usdc").events ∧
     (stellarTransfer dTransferFresh envAuthExpired
        (.direct (25/2) "GDEST") "usdc").result
       = Except.error
           "Authentication expired. Please refresh the page and log in again.") ∧
    ((stellarTransfer dTransferFresh envSignRejected
        (.direct (25/2) "GDEST") "usdc").result
       = Except.error "User rejected the request" ∧
     Ev.refreshUser
       ∉ (stellarTransfer dTransferFresh envSignRejected
            (.direct (25/2) "GDEST") "usdc").events) := by
  have h1 := (C4_auth_expiry_remediation.1 dFreshCheck envAuthExpired "GPKC"
    "User must be authenticated" rfl rfl rfl rfl
    (by intro acct heq; cases heq; norm_num [nativeXlmOf, acctFunded])
    ⟨acctFunded, rfl⟩ rfl).1 (by decide)
  have h2 := (C4_auth_expiry_remediation.1 dFreshCheck envSignRejected "GPKC"
    "User rejected the request" rfl rfl rfl rfl
    (by intro acct heq; cases heq; norm_num [nativeXlmOf, acctFunded])
    ⟨acctFunded, rfl⟩ rfl).2 (by decide) (by decide)
  have h3 := (C4_auth_expiry_remediation.2 dTransferFresh envAuthExpired (25/2)
    "GDEST" "usdc" "GPKC" "User must be authenticated" acctFunded
    rfl rfl rfl rfl rfl rfl rfl).1 (by decide)
  have h4 := (C4_auth_expiry_remediation.2 dTransferFresh envSignRejected (25/2)
    "GDEST" "usdc" "GPKC" "User rejected the request" acctFunded
    rfl rfl rfl rfl rfl rfl rfl).2 (by decide)
  exact ⟨h1, h2, ⟨h3.1, h3.2.1⟩, h4⟩

/-- **C5, counterexample.** The claim says every unmet precondition —
including a missing ledger connection or a missing loaded account — yields
the explicit "please ensure you are logged in" error. It is false: a fully
logged-in caller with no server gets the generic "Transaction failed" error
instead (though indeed with no signing or submission). -/
theorem C5_counterexample :
    (stellarTransfer dNoServer envOk (.direct 10 "GDEST") "usdc").result
      = Except.error "Transaction failed" ∧
    (stellarTransfer dNoServer envOk (.direct 10 "GDEST") "usdc").result
      ≠ Except.error "Please ensure you are logged in and try again" ∧
    (stellarTransfer dNoServer envOk (.direct 10 "GDEST") "usdc").events = [] := by
  refine ⟨rfl, ?_, rfl⟩
  intro h
  rw [show (stellarTransfer dNoServer envOk (.direct 10 "GDEST") "usdc").result
        = Except.error "Transaction failed" from rfl] at h
  simp at h

/-- **C5, amended.** The Stellar transfer fails with the explicit "please
ensure you are logged in" error when the authenticated-user, user-object or
public-key precondition is unmet, and with the generic "Transaction failed"
error when the user is logged in but the ledger connection or the loaded
account is missing; in both cases the effect trace is empty, so nothing is
signed or submitted. -/
theorem C5_amended_preconditions (d : TransferDeps) (env : StellarEnv)
    (payload : TransferPayload) (ty : String) :
    (¬(d.userPresent = true ∧ d.isAuthenticated = true ∧ d.publicKey.isSome = true) →
       (stellarTransfer d env payload ty).result
         = Except.error "Please ensure you are logged in and try again" ∧
       (stellarTransfer d env payload ty).events = []) ∧
    (d.userPresent = true → d.isAuthenticated = true → d.publicKey.isSome = true →
     ¬(d.account.isSome = true ∧ d.serverPresent = true) →
       (stellarTransfer d env payload ty).result = Except.error "Transaction failed" ∧
       (stellarTransfer d env payload ty).events = []) := by
  obtain ⟨user, auth, pkOpt, accountOpt, server⟩ := d
  constructor
  · intro h
    cases user with
    | false => exact ⟨rfl, rfl⟩
    | true =>
      cases auth with
      | false => exact ⟨rfl, rfl⟩
      | true =>
        cases pkOpt with
        | none => exact ⟨rfl, rfl⟩
        | some pk => exact absurd ⟨rfl, rfl, rfl⟩ h
  · intro huser hauth hpk h2
    cases user with
    | false => simp at huser
    | true =>
    cases auth with
    | false => simp at hauth
    | true =>
    cases pkOpt with
    | none => simp at hpk
    | some pk =>
    cases accountOpt with
    | none => exact ⟨rfl, rfl⟩
    | some acct =>
      cases server with
      | false => exact ⟨rfl, rfl⟩
      | true => exact absurd ⟨rfl, rfl⟩ h2

/-- Witness for the amended C5: a caller with no user gets the logged-in
error; a logged-in caller with no server gets the generic error; neither run
has any effect. -/
theorem C5_amended_preconditions_witness :
    ((stellarTransfer dNoUser envOk (.direct 10 "GDEST") "usdc").result
       = Except.error "Please ensure you are logged in and try again" ∧
     (stellarTransfer dNoUser envOk (.direct 10 "GDEST") "usdc").events = []) ∧
    ((stellarTransfer dNoServer envOk (.direct 10 "GDEST") "usdc").result
       = Except.error "Transaction failed" ∧
     (stellarTransfer dNoServer envOk (.direct 10 "GDEST") "usdc").events = []) := by
  constructor
  · exact (C5_amended_preconditions dNoUser envOk (.direct 10 "GDEST") "usdc").1
      (by intro h; exact absurd h.1 (by decide))
  · exact (C5_amended_preconditions dNoServer envOk (.direct 10 "GDEST") "usdc").2
      rfl rfl rfl (by intro h; exact absurd h.2 (by decide))

/-- **C6.** When `loadAccount` yields the distinguished not-found outcome
(a never-funded address), both provider revisions expose
`hasUsdcTrustline = false` and an empty balance list and show no error
toast; any other load failure is surfaced to the user as an error toast. -/
theorem C6_account_not_found (pk : String) (prior : AccountInfoState)
    (loadResult : Except LoadError AccountRec) :
    (loadResult = Except.error LoadError.notFound →
       (getAccountInfo pk prior loadResult).1 = AccountInfoState.nullState ∧
       hasUsdcTrustline (getAccountInfo pk prior loadResult).1 = false ∧
       formattedBalances (getAccountInfo pk prior loadResult).1 = [] ∧
       (∀ m, Ev.toastErr m ∉ (getAccountInfo pk prior loadResult).2) ∧
       (refreshAccount (some pk) prior loadResult).1 = AccountInfoState.undef ∧
       hasUsdcTrustline (refreshAccount (some pk) prior loadResult).1 = false ∧
       (refreshAccount (some pk) prior loadResult).2.1 = [] ∧
       (∀ m, Ev.toastErr m ∉ (refreshAccount (some pk) prior loadResult).2.2)) ∧
    (∀ m, loadResult = Except.error (LoadError.other m) →
       Ev.toastErr (jsOrStr m "Failed to get account info")
         ∈ (getAccountInfo pk prior loadResult).2 ∧
       Ev.toastErr (jsOrStr m "Failed to get account info")
         ∈ (refreshAccount (some pk) prior loadResult).2.2) := by
  constructor
  · intro h
    subst h
    refine ⟨rfl, rfl, rfl, ?_, rfl, rfl, rfl, ?_⟩ <;>
      (intro m; simp [getAccountInfo, refreshAccount, isAccountNotFound])
  · intro m h
    subst h
    constructor <;>
      simp [getAccountInfo, refreshAccount, isAccountNotFound, loadErrorMessage]

/-- Witness for C6: a never-funded address yields the silent empty state in
both provider revisions; a transport failure yields an error toast in
both. -/
theorem C6_account_not_found_witness :
    ((getAccountInfo "GPKE" AccountInfoState.undef
        (Except.error LoadError.notFound)).1 = AccountInfoState.nullState ∧
     hasUsdcTrustline
       (getAccountInfo "GPKE" AccountInfoState.undef
         (Except.error LoadError.notFound)).1 = false ∧
     formattedBalances
       (getAccountInfo "GPKE" AccountInfoState.undef
         (Except.error LoadError.notFound)).1 = [] ∧
     (∀ m, Ev.toastErr m ∉
        (getAccountInfo "GPKE" AccountInfoState.undef
          (Except.error LoadError.notFound)).2) ∧
     (refreshAccount (some "GPKE") AccountInfoState.undef
        (Except.error LoadError.notFound)).1 = AccountInfoState.undef ∧
     hasUsdcTrustline
       (refreshAccount (some "GPKE") AccountInfoState.undef
         (Except.error LoadError.notFound)).1 = false ∧
     (refreshAccount (some "GPKE") AccountInfoState.undef
        (Except.error LoadError.notFound)).2.1 = [] ∧
     (∀ m, Ev.toastErr m ∉
        (refreshAccount (some "GPKE") AccountInfoState.undef
          (Except.error LoadError.notFound)).2.2)) ∧
    (Ev.toastErr (jsOrStr "Network request failed" "Failed to get account info")
       ∈ (getAccountInfo "GPKE" AccountInfoState.undef
            (Except.error (LoadError.other "Network request failed"))).2 ∧
     Ev.toastErr (jsOrStr "Network request failed" "Failed to get account info")
       ∈ (refreshAccount (some "GPKE") AccountInfoState.undef
            (Except.error (LoadError.other "Network request failed"))).2.2) :=
  ⟨(C6_account_not_found "GPKE" AccountInfoState.undef
      (Except.error LoadError.notFound)).1 rfl,
   (C6_account_not_found "GPKE" AccountInfoState.undef
      (Except.error (LoadError.other "Network request failed"))).2
     "Network request failed" rfl⟩

/-- **C7.** On the EVM path with wallet, token, provider accounts and
signature available, a backend response with `success: true` and a
transaction object makes the orchestrator resolve with the success outcome
carrying exactly that transaction's hash (and record it in `status`); when
`success` or `transaction` is absent it resolves with the failure outcome
carrying the response's message (the generic "Transfer failed" only when no
non-empty message is present). -/
theorem C7_evm_backend_response (d : TokenTransferDeps) (env : TokenTransferEnv)
    (resp : WalletTransferResponse)
    (hchain : d.preferredPrimaryChain = some "USDC_BASE")
    (hw : d.primaryWalletId.isSome = true)
    (hpv : d.privyWalletAddr.isSome = true)
    (hm : d.merchantTokenPresent = true)
    (hacc : ∃ a, env.evmAccountsResult = Except.ok a)
    (hsig : ∃ s, env.evmSignResult = Except.ok s)
    (hresp : env.walletTransferResult = Except.ok resp) :
    (∀ t, resp.success = true → resp.transaction = some t →
       tokenTransfer d env =
         (some (.ok t.hash),
          { isLoading := false, error := none, transactionHash := some t.hash,
            signature := none, success := true })) ∧
    (¬(resp.success = true ∧ resp.transaction.isSome = true) →
       tokenTransfer d env =
         (some (.failedErr (jsOrOpt resp.message "Transfer failed")),
          failedStatus (jsOrOpt resp.message "Transfer failed"))) ∧
    (∀ m, resp.message = some m → m ≠ "" →
       jsOrOpt resp.message "Transfer failed" = m) := by
  obtain ⟨chainOpt, walletOpt, privyOpt, merchant, conn⟩ := d
  obtain ⟨accRes, signRes, wtRes, stRes⟩ := env
  obtain ⟨a, ha⟩ := hacc
  obtain ⟨s, hs⟩ := hsig
  cases chainOpt with
  | none => simp at hchain
  | some chain =>
  have hchain' : chain = "USDC_BASE" := by simpa using hchain
  subst hchain'
  cases walletOpt with
  | none => simp at hw
  | some wid =>
  cases privyOpt with
  | none => simp at hpv
  | some paddr =>
  cases merchant with
  | false => simp at hm
  | true =>
  cases accRes with
  | error e => simp at ha
  | ok a' =>
  cases signRes with
  | error e => simp at hs
  | ok s' =>
  cases wtRes with
  | error e => simp at hresp
  | ok r =>
  have hr : resp = r := by simpa using hresp.symm
  subst hr
  refine ⟨?_, ?_, ?_⟩
  · intro t hsucc htx
    simp [tokenTransfer, hsucc, htx]
  · intro h
    cases hsucc : resp.success with
    | false => simp [tokenTransfer, hsucc]
    | true =>
      cases htx : resp.transaction with
      | some t => exact absurd ⟨hsucc, by rw [htx]; rfl⟩ h
      | none => simp [tokenTransfer, hsucc, htx]
  · intro m hm1 hm2
    simp [jsOrOpt, jsOrStr, hm1, hm2]

/-- Witness for C7 at Scenario B: the backend returns
`{success: true, transaction: {hash: "0xdeadbeef"}}` and the orchestrator
resolves with `transactionHash = "0xdeadbeef"`; a denial without a
transaction resolves with the failure outcome carrying the response
message. -/
theorem C7_evm_backend_response_witness :
    tokenTransfer dEvmReady (envTokenWith respDeadbeef) =
      (some (.ok "0xdeadbeef"),
       { isLoading := false, error := none, transactionHash := some "0xdeadbeef",
         signature := none, success := true }) ∧
    tokenTransfer dEvmReady (envTokenWith respDenied) =
      (some (.failedErr (jsOrOpt respDenied.message "Transfer failed")),
       failedStatus (jsOrOpt respDenied.message "Transfer failed")) ∧
    jsOrOpt respDenied.message "Transfer failed" = "Insufficient balance" := by
  refine ⟨?_, ?_, ?_⟩
  · exact (C7_evm_backend_response dEvmReady (envTokenWith respDeadbeef)
      respDeadbeef rfl rfl rfl rfl ⟨"0xMERCHANT", rfl⟩ ⟨"0xsig", rfl⟩ rfl).1
      { hash := "0xdeadbeef", caip2 := "eip155:8453", walletId := "w1" } rfl rfl
  · exact (C7_evm_backend_response dEvmReady (envTokenWith respDenied)
      respDenied rfl rfl rfl rfl ⟨"0xMERCHANT", rfl⟩ ⟨"0xsig", rfl⟩ rfl).2.1
      (by intro h; exact absurd h.2 (by decide))
  · exact (C7_evm_backend_response dEvmReady (envTokenWith respDenied)
      respDenied rfl rfl rfl rfl ⟨"0xMERCHANT", rfl⟩ ⟨"0xsig", rfl⟩ rfl).2.2
      "Insufficient balance" rfl (by decide)

/-- **C10.** When neither transfer branch applies — Base preferred without a
primary wallet, or Stellar preferred without an established connection —
`useTokenTransfer.transfer` resolves with `undefined` (no result at all),
records no error, and leaves `status.isLoading` at `true`. -/
theorem C10_no_branch_resolves_undefined (d : TokenTransferDeps)
    (env : TokenTransferEnv)
    (h : (d.preferredPrimaryChain = some "USDC_BASE" ∧ d.primaryWalletId = none) ∨
         (d.preferredPrimaryChain = some "USDC_XLM" ∧ d.stellarConnected = false)) :
    tokenTransfer d env = (none, loadingStatus) ∧
    loadingStatus.error = none ∧ loadingStatus.isLoading = true := by
  refine ⟨?_, rfl, rfl⟩
  unfold tokenTransfer
  rcases h with ⟨h1, h2⟩ | ⟨h1, h2⟩ <;> rw [h1, h2] <;> simp

/-- Witness for C10: both degenerate configurations resolve with no result
and a still-loading, error-free status. -/
theorem C10_no_branch_resolves_undefined_witness :
    (tokenTransfer dNoPrimaryWallet (envTokenWith respDeadbeef)
       = (none, loadingStatus) ∧
     loadingStatus.error = none ∧ loadingStatus.isLoading = true) ∧
    (tokenTransfer dStellarDisconnected (envTokenWith respDeadbeef)
       = (none, loadingStatus) ∧
     loadingStatus.error = none ∧ loadingStatus.isLoading = true) :=
  ⟨C10_no_branch_resolves_undefined dNoPrimaryWallet (envTokenWith respDeadbeef)
     (Or.inl ⟨rfl, rfl⟩),
   C10_no_branch_resolves_undefined dStellarDisconnected (envTokenWith respDeadbeef)
     (Or.inr ⟨rfl, rfl⟩)⟩

/-- **C8.** Switching toward a chain for which the user has no wallet always
issues a wallet-creation call before any preference write (projected on
creation/preference effects, the trace is the creation alone or the creation
followed by the preference write), and when the creation call fails the
preference is unchanged and no preference write ever happens. -/
theorem C8_switch_creates_before_pref (d : SwitchDeps) (env : SwitchEnv)
    (accounts : List LinkedAccount) (target : String)
    (hu : d.userAccounts = some accounts)
    (hm : d.merchantPresent = true)
    (htarget : target
      = (if d.preferredPrimaryChain == some "USDC_BASE" then "stellar" else "ethereum"))
    (hnowallet : accounts.any
      (fun a => a.type == "wallet" && a.chain_type == target) = false) :
    ((handleSwitchWallet d env).1.filter isCreateOrPrefEv
       = [Ev.createWalletCall target] ∨
     (handleSwitchWallet d env).1.filter isCreateOrPrefEv
       = [Ev.createWalletCall target,
          Ev.setPrimaryChainPref
            (if d.preferredPrimaryChain == some "USDC_BASE"
             then "USDC_XLM" else "USDC_BASE")]) ∧
    (∀ e, env.createWalletResult = Except.error e →
       (handleSwitchWallet d env).2 = d.preferredPrimaryChain ∧
       ∀ v, Ev.setPrimaryChainPref v ∉ (handleSwitchWallet d env).1) := by
  obtain ⟨uaOpt, merch, pref⟩ := d
  dsimp only at hu hm htarget hnowallet ⊢
  subst hu
  subst hm
  subst htarget
  have hnowallet' : ∀ x ∈ accounts,
      ¬(x.type = "wallet" ∧
        x.chain_type = (if pref = some "USDC_BASE" then "stellar" else "ethereum")) := by
    simpa using hnowallet
  have hno2 : accounts.any
      (fun a => a.type == "wallet" && a.wallet_client_type == "privy" &&
        a.chain_type == (if pref == some "USDC_BASE" then "stellar" else "ethereum"))
      = false := by
    rw [Bool.eq_false_iff]
    intro hstrict
    rw [List.any_eq_true] at hstrict
    obtain ⟨x, hx, hpx⟩ := hstrict
    simp only [Bool.and_eq_true, beq_iff_eq] at hpx
    exact hnowallet' x hx ⟨hpx.1.1, hpx.2⟩
  obtain ⟨cw, rf, up, re⟩ := env
  cases cw with
  | error e =>
    refine ⟨Or.inl ?_, fun e' he' => ⟨?_, fun v => ?_⟩⟩ <;>
      (simp only [handleSwitchWallet, handleCreateWallet, hnowallet, hno2,
         Bool.false_eq_true, if_false] <;>
       simp [isCreateOrPrefEv])
  | ok u =>
    cases rf with
    | false =>
      refine ⟨Or.inl ?_, fun e' he' => absurd he' (by simp)⟩
      simp only [handleSwitchWallet, handleCreateWallet, hnowallet, hno2,
        Bool.false_eq_true, if_false]
      simp [isCreateOrPrefEv]
    | true =>
      cases up with
      | error e2 =>
        refine ⟨Or.inl ?_, fun e' he' => absurd he' (by simp)⟩
        simp only [handleSwitchWallet, handleCreateWallet, hnowallet, hno2,
          Bool.false_eq_true, if_false]
        simp [isCreateOrPrefEv]
      | ok u2 =>
        cases re <;>
          (refine ⟨Or.inr ?_, fun e' he' => absurd he' (by simp)⟩
           simp only [handleSwitchWallet, handleCreateWallet, hnowallet, hno2,
             Bool.false_eq_true, if_false]
           simp [isCreateOrPrefEv])

/-- Witness for C8: a user holding only an Ethereum wallet switches toward
Stellar; when creation succeeds the projected trace is create-then-set, and
when the creation call fails the preference stays at the EVM chain with no
preference write. -/
theorem C8_switch_creates_before_pref_witness :
    (((handleSwitchWallet
         { userAccounts := some [{ type := "wallet", wallet_client_type := "privy",
                                   chain_type := "ethereum" }],
           merchantPresent := true, preferredPrimaryChain := some "USDC_BASE" }
         { createWalletResult := .ok (), refreshUserOk := true,
           updateProfileResult := .ok (), refetchMerchantOk := true }).1.filter
        isCreateOrPrefEv = [Ev.createWalletCall "stellar"] ∨
      (handleSwitchWallet
         { userAccounts := some [{ type := "wallet", wallet_client_type := "privy",
                                   chain_type := "ethereum" }],
           merchantPresent := true, preferredPrimaryChain := some "USDC_BASE" }
         { createWalletResult := .ok (), refreshUserOk := true,
           updateProfileResult := .ok (), refetchMerchantOk := true }).1.filter
        isCreateOrPrefEv
        = [Ev.createWalletCall "stellar", Ev.setPrimaryChainPref "USDC_XLM"]) ∧
     True) ∧
    ((handleSwitchWallet
        { userAccounts := some [{ type := "wallet", wallet_client_type := "privy",
                                  chain_type := "ethereum" }],
          merchantPresent := true, preferredPrimaryChain := some "USDC_BASE" }
        { createWalletResult := .error "creation failed", refreshUserOk := true,
          updateProfileResult := .ok (), refetchMerchantOk := true }).2
       = some "USDC_BASE" ∧
     ∀ v, Ev.setPrimaryChainPref v ∉
       (handleSwitchWallet
          { userAccounts := some [{ type := "wallet", wallet_client_type := "privy",
                                    chain_type := "ethereum" }],
            merchantPresent := true, preferredPrimaryChain := some "USDC_BASE" }
          { createWalletResult := .error "creation failed", refreshUserOk := true,
            updateProfileResult := .ok (), refetchMerchantOk := true }).1) := by
  constructor
  · refine ⟨?_, trivial⟩
    have h := C8_switch_creates_before_pref
      { userAccounts := some [{ type := "wallet", wallet_client_type := "privy",
                                chain_type := "ethereum" }],
        merchantPresent := true, preferredPrimaryChain := some "USDC_BASE" }
      { createWalletResult := .ok (), refreshUserOk := true,
        updateProfileResult := .ok (), refetchMerchantOk := true }
      [{ type := "wallet", wallet_client_type := "privy", chain_type := "ethereum" }]
      "stellar" rfl rfl (by decide) (by decide)
    simpa using h.1
  · have h := C8_switch_creates_before_pref
      { userAccounts := some [{ type := "wallet", wallet_client_type := "privy",
                                chain_type := "ethereum" }],
        merchantPresent := true, preferredPrimaryChain := some "USDC_BASE" }
      { createWalletResult := .error "creation failed", refreshUserOk := true,
        updateProfileResult := .ok (), refetchMerchantOk := true }
      [{ type := "wallet", wallet_client_type := "privy", chain_type := "ethereum" }]
      "stellar" rfl rfl (by decide) (by decide)
    exact h.2 "creation failed" rfl

end Rozo
